import Mathlib

/-!
A shallow embedding of the style-cascade resolver and block-layout engine of
the `serval` toy rendering engine (src/css.rs, src/dom.rs, src/style.rs,
src/layout.rs), together with theorems checking the natural-language
specification against it.

Modelling conventions:
* Rust `f32` pixel lengths are modelled as `Rat`.  Every arithmetic
  operation the layout engine performs (addition, subtraction, halving)
  is exact on the concrete values exercised here, so the rational model
  agrees with the `f32` computation on them.
* `HashMap<String, Value>` (the resolved property map) is modelled as an
  association list where `insert` conses and `get` takes the first match:
  extensionally the same overwrite-on-insert / lookup semantics.
* `BTreeSet<String>` (a selector's classes) is modelled as `Finset String`
  (order-irrelevant, duplicates collapse), and `BTreeMap<String, String>`
  (an element's attributes) as an association list looked up by first key.
* Rust's stable `sort_by(cmp)` is modelled as `List.mergeSort` with
  `le a b := cmp a b ≠ .gt`; both are stable sorts for that total
  preorder, hence extensionally equal.
* `unimplemented!()` / `unreachable!()` panics are modelled by `Option`:
  a function that can panic returns `none` exactly on the panicking inputs.
-/

namespace Serval

/-! ### css.rs: values, selectors, rules -/

inductive CssUnit where
  | px
deriving DecidableEq

structure Color where
  r : Nat
  g : Nat
  b : Nat
deriving DecidableEq

/-- `css::Value` (src/css.rs). -/
inductive Value where
  | keyword (s : String)
  | length (n : Rat) (u : CssUnit)
  | colorValue (c : Color)
deriving DecidableEq

/-- `Value::keyword_auto` (src/css.rs). -/
def Value.keyword_auto : Value := .keyword "auto"

/-- `Value::length_zero` (src/css.rs). -/
def Value.length_zero : Value := .length 0 .px

/-- `Value::to_px` (src/css.rs): pixel lengths convert, everything else is 0. -/
def Value.to_px : Value → Rat
  | .length px .px => px
  | _ => 0

/-- `css::SimpleSelector` (src/css.rs): optional tag, optional id, class set. -/
structure SimpleSelector where
  tag_name : Option String
  id : Option String
  classes : Finset String
deriving DecidableEq

/-- `css::Selector` (src/css.rs): only the `Simple` variant exists. -/
inductive Selector where
  | simple (s : SimpleSelector)
deriving DecidableEq

/-- `css::Specifity` (src/css.rs): `(usize, usize, usize)`. -/
abbrev Specifity := Nat × Nat × Nat

/-- Rust's derived `Ord` on `(usize, usize, usize)`: lexicographic. -/
def specCmp (a b : Specifity) : Ordering :=
  (compare a.1 b.1).then ((compare a.2.1 b.2.1).then (compare a.2.2 b.2.2))

/-- `Selector::specifity` (src/css.rs lines 170-178). -/
def Selector.specifity : Selector → Specifity
  | .simple s =>
    (if s.id.isSome then 1 else 0, s.classes.card, if s.tag_name.isSome then 1 else 0)

/-- `css::SortedSelectors` (src/css.rs). -/
structure SortedSelectors where
  selectors : List Selector
deriving DecidableEq

/-- `SortedSelectors::new` (src/css.rs lines 30-35): stable sort by
`|a, b| b.specifity().cmp(&a.specifity())`, i.e. descending specificity. -/
def SortedSelectors.new (selectors : List Selector) : SortedSelectors :=
  ⟨selectors.mergeSort fun a b =>
    decide (specCmp b.specifity a.specifity ≠ Ordering.gt)⟩

/-- `css::Declaration` (src/css.rs). -/
structure Declaration where
  name : String
  value : Value
deriving DecidableEq

/-- `css::Rule` (src/css.rs). -/
structure Rule where
  selectors : SortedSelectors
  declarations : List Declaration
deriving DecidableEq

/-- `css::Stylesheet` (src/css.rs). -/
structure Stylesheet where
  rules : List Rule
deriving DecidableEq

/-! ### dom.rs: document nodes -/

/-- `dom::ElementData` (src/dom.rs) minus the child list, which the Lean
`Node` tree carries directly; selector matching reads only tag and attrs. -/
structure ElementData where
  tag_name : String
  attrs : List (String × String)
deriving DecidableEq

/-- `BTreeMap::get`: first (unique) entry with the key. -/
def attrsGet (attrs : List (String × String)) (key : String) : Option String :=
  (attrs.find? fun p => p.1 = key).map (·.2)

/-- `ElementData::id` (src/dom.rs). -/
def ElementData.id (e : ElementData) : Option String :=
  attrsGet e.attrs "id"

/-- `ElementData::classes` (src/dom.rs): the `class` attribute split on
single spaces (as a list; only membership is ever consulted). -/
def ElementData.classes (e : ElementData) : List String :=
  ((attrsGet e.attrs "class").map fun cl => cl.splitOn " ").getD []

/-- `dom::Node` (src/dom.rs): text or element with children. -/
inductive Node where
  | text (s : String)
  | element (data : ElementData) (children : List Node)

/-- `Node::children` (src/dom.rs). -/
def Node.children : Node → List Node
  | .text _ => []
  | .element _ cs => cs

/-! ### style.rs: selector matching, cascade, style tree -/

/-- `style::CssPropertyMap` = `HashMap<String, Value>`, as an association
list: `insert` conses, `get` returns the first match. -/
def CssPropertyMap := List (String × Value)

/-- `HashMap::get`. -/
def CssPropertyMap.get (m : CssPropertyMap) (name : String) : Option Value :=
  (List.find? (fun p => p.1 = name) m).map (·.2)

/-- `HashMap::insert` (unconditional overwrite). -/
def CssPropertyMap.insert (m : CssPropertyMap) (name : String) (v : Value) :
    CssPropertyMap :=
  (name, v) :: m

/-- `style::Display` (src/style.rs). -/
inductive Display where
  | inline
  | block
  | none
deriving DecidableEq

/-- `style::StyledNode` (src/style.rs): source node, resolved property map,
styled children. -/
inductive StyledNode where
  | mk (node : Node) (css_specified_values : CssPropertyMap)
      (children : List StyledNode)

def StyledNode.css_specified_values : StyledNode → CssPropertyMap
  | .mk _ m _ => m

def StyledNode.children : StyledNode → List StyledNode
  | .mk _ _ cs => cs

/-- `StyledNode::value` (src/style.rs lines 24-26). -/
def StyledNode.value (n : StyledNode) (name : String) : Option Value :=
  n.css_specified_values.get name

/-- `StyledNode::lookup` (src/style.rs lines 28-36): property, then its
shorthand fallback, then the default. -/
def StyledNode.lookup (n : StyledNode) (name fallback_name : String)
    (default : Value) : Value :=
  (n.value name).getD ((n.value fallback_name).getD default)

/-- `StyledNode::display` (src/style.rs lines 38-47). -/
def StyledNode.display (n : StyledNode) : Display :=
  match n.value "display" with
  | some (.keyword s) =>
    if s = "block" then .block else if s = "none" then .none else .inline
  | _ => .inline

/-- `style::matches_simple_selector` (src/style.rs lines 113-136), with the
source's early returns as nested conditionals. -/
def matches_simple_selector (elem : ElementData) (selector : SimpleSelector) :
    Bool :=
  -- Check type selector
  if ¬ (selector.tag_name.all fun name => elem.tag_name == name) then false
  -- Check ID selector
  else if ¬ (selector.id.all fun i => elem.id == some i) then false
  -- Check class selectors
  else if ¬ (∀ c ∈ selector.classes, elem.classes.contains c) then false
  -- We didn't find any non-matching selector components.
  else true

/-- `style::matches` (src/style.rs lines 107-111). -/
def matchesSel (elem : ElementData) (selector : Selector) : Bool :=
  match selector with
  | .simple simple_selector => matches_simple_selector elem simple_selector

/-- `style::match_selectors` (src/style.rs lines 96-105): first matching
selector of the descending-specificity list. -/
def match_selectors (elem : ElementData) (sorted_selectors : SortedSelectors) :
    Option Selector :=
  sorted_selectors.selectors.find? fun selector => matchesSel elem selector

/-- `style::match_rule` (src/style.rs lines 92-94). -/
def match_rule (elem : ElementData) (rule : Rule) : Option (Specifity × Rule) :=
  (match_selectors elem rule.selectors).map fun selector =>
    (selector.specifity, rule)

/-- `style::matching_rules` (src/style.rs lines 81-90). -/
def matching_rules (elem : ElementData) (stylesheet : Stylesheet) :
    List (Specifity × Rule) :=
  stylesheet.rules.filterMap fun rule => match_rule elem rule

/-- `style::css_specified_values` (src/style.rs lines 65-77): stable sort of
the matched rules by ascending specificity (`a.cmp(&b)`), then insert every
declaration, later ones overwriting. -/
def css_specified_values (elem : ElementData) (stylesheet : Stylesheet) :
    CssPropertyMap :=
  let rules := matching_rules elem stylesheet
  let sorted := rules.mergeSort fun a b => decide (specCmp a.1 b.1 ≠ Ordering.gt)
  sorted.foldl
    (fun values r =>
      r.2.declarations.foldl
        (fun values declaration =>
          values.insert declaration.name declaration.value)
        values)
    []

mutual

/-- `style::style_tree` (src/style.rs lines 50-63).  The source maps the
recursive call over `root.children()`; that map is the mutual companion
`style_tree_list`. -/
def style_tree (root : Node) (stylesheet : Stylesheet) : StyledNode :=
  .mk root
    (match root with
     | .element data _ => css_specified_values data stylesheet
     | .text _ => [])
    (match root with
     | .element _ cs => style_tree_list cs stylesheet
     | .text _ => [])

/-- `children.iter().map(|child| style_tree(child, stylesheet)).collect()`. -/
def style_tree_list (children : List Node) (stylesheet : Stylesheet) :
    List StyledNode :=
  match children with
  | [] => []
  | c :: cs => style_tree c stylesheet :: style_tree_list cs stylesheet

end

/-! ### layout.rs: dimensions, box tree, block layout -/

/-- `layout::Rect` (src/layout.rs). -/
structure Rect where
  x : Rat
  y : Rat
  width : Rat
  height : Rat
deriving DecidableEq

/-- `layout::EdgeSizes` (src/layout.rs). -/
structure EdgeSizes where
  left : Rat
  right : Rat
  top : Rat
  bottom : Rat
deriving DecidableEq

/-- `layout::Dimensions` (src/layout.rs). -/
structure Dimensions where
  content : Rect
  padding : EdgeSizes
  border : EdgeSizes
  margin : EdgeSizes
deriving DecidableEq

/-- The `Default` instances: everything zero. -/
def Rect.default : Rect := ⟨0, 0, 0, 0⟩

def EdgeSizes.default : EdgeSizes := ⟨0, 0, 0, 0⟩

def Dimensions.default : Dimensions :=
  ⟨Rect.default, EdgeSizes.default, EdgeSizes.default, EdgeSizes.default⟩

/-- `Rect::expanded_by` (src/layout.rs lines 21-28). -/
def Rect.expanded_by (r : Rect) (edge : EdgeSizes) : Rect :=
  { x := r.x - edge.left
    y := r.y - edge.top
    width := r.width + edge.left + edge.right
    height := r.height + edge.top + edge.bottom }

/-- `Dimensions::padding_box` (src/layout.rs). -/
def Dimensions.padding_box (d : Dimensions) : Rect :=
  d.content.expanded_by d.padding

/-- `Dimensions::border_box` (src/layout.rs). -/
def Dimensions.border_box (d : Dimensions) : Rect :=
  d.padding_box.expanded_by d.border

/-- `Dimensions::margin_box` (src/layout.rs). -/
def Dimensions.margin_box (d : Dimensions) : Rect :=
  d.border_box.expanded_by d.margin

/-- `layout::BoxType` (src/layout.rs lines 368-372); the Rust reference to
the styled node is carried by value. -/
inductive BoxType where
  | blockNode (node : StyledNode)
  | inlineNode (node : StyledNode)
  | anonymousBlock

/-- `layout::LayoutBox` (src/layout.rs lines 105-109). -/
inductive LayoutBox where
  | mk (dimensions : Dimensions) (box_type : BoxType) (children : List LayoutBox)

def LayoutBox.dimensions : LayoutBox → Dimensions
  | .mk d _ _ => d

def LayoutBox.box_type : LayoutBox → BoxType
  | .mk _ t _ => t

def LayoutBox.children : LayoutBox → List LayoutBox
  | .mk _ _ cs => cs

/-- Whether a box is an `AnonymousBlock`. -/
def LayoutBox.isAnonymous : LayoutBox → Bool
  | .mk _ .anonymousBlock _ => true
  | _ => false

/-- `LayoutBox::get_inline_container` (src/layout.rs lines 158-172) for a
block parent, combined with the caller's `children.push(b)`: push `b` into
the parent's last child if that child is an anonymous block, otherwise into
a freshly appended anonymous block. -/
def push_to_inline_container (acc : List LayoutBox) (b : LayoutBox) :
    List LayoutBox :=
  match acc.getLast? with
  | some (.mk ds .anonymousBlock cs) =>
    -- Re-use the last anonymous block
    acc.dropLast ++ [.mk ds .anonymousBlock (cs ++ [b])]
  | _ => acc ++ [.mk Dimensions.default .anonymousBlock [b]]

/-- The child loop of `build_layout_tree` (src/layout.rs lines 388-399),
building the parent box's child list left to right.  The source's recursive
`build_layout_tree(child)` is inlined (for a child the `Display::None` arm
of `LayoutBox::new` is unreachable, so the recursion is total): a `Block`
child becomes a `BlockNode` box appended directly, an `Inline` child becomes
an `InlineNode` box pushed into the parent's inline container (the parent
itself unless the parent is a block, per `get_inline_container`), and a
`None` child is skipped together with its whole subtree. -/
def build_layout_children (parentIsBlock : Bool) (acc : List LayoutBox) :
    List StyledNode → List LayoutBox
  | [] => acc
  | c :: rest =>
    match c with
    | .mk nd mp ccs =>
      match (StyledNode.mk nd mp ccs).display with
      | .none =>
        -- skip
        build_layout_children parentIsBlock acc rest
      | .block =>
        build_layout_children parentIsBlock
          (acc ++ [.mk Dimensions.default (.blockNode (.mk nd mp ccs))
            (build_layout_children true [] ccs)])
          rest
      | .inline =>
        let b : LayoutBox :=
          .mk Dimensions.default (.inlineNode (.mk nd mp ccs))
            (build_layout_children false [] ccs)
        build_layout_children parentIsBlock
          (if parentIsBlock then push_to_inline_container acc b else acc ++ [b])
          rest

/-- `layout::build_layout_tree` (src/layout.rs lines 386-401): `none` models
the `unreachable!()` panic of `LayoutBox::new` on a display-`None` root. -/
def build_layout_tree (style_node : StyledNode) : Option LayoutBox :=
  match style_node.display with
  | .none => none
  | .block =>
    some (.mk Dimensions.default (.blockNode style_node)
      (build_layout_children true [] style_node.children))
  | .inline =>
    some (.mk Dimensions.default (.inlineNode style_node)
      (build_layout_children false [] style_node.children))

/-- `LayoutBox::calculate_block_width` (src/layout.rs lines 211-305), as a
pure update of the box's dimensions `d` given the style node and the
containing block. -/
def calculate_block_width (style : StyledNode) (containing_block : Dimensions)
    (d : Dimensions) : Dimensions :=
  let width := (style.value "width").getD Value.keyword_auto
  let zero := Value.length_zero
  let margin_left := style.lookup "margin-left" "margin" zero
  let margin_right := style.lookup "margin-right" "margin" zero
  let border_left := style.lookup "border-left-width" "border-width" zero
  let border_right := style.lookup "border-right-width" "border-width" zero
  let padding_left := style.lookup "padding-left" "padding" zero
  let padding_right := style.lookup "padding-right" "padding" zero
  let total : Rat :=
    ([margin_left, margin_right, border_left, border_right, padding_left,
      padding_right, width].map Value.to_px).sum
  let auto := Value.keyword_auto
  -- If width is not auto and the total is wider than the containing block,
  -- treat auto margins as 0.
  let margin_left :=
    if width ≠ auto ∧ total > containing_block.content.width ∧
        margin_left = auto then zero
    else margin_left
  let margin_right :=
    if width ≠ auto ∧ total > containing_block.content.width ∧
        margin_right = auto then zero
    else margin_right
  let underflow := containing_block.content.width - total
  let d := { d with
    padding.left := padding_left.to_px
    padding.right := padding_right.to_px
    border.left := border_left.to_px
    border.right := border_right.to_px }
  match decide (width = auto), decide (margin_left = auto),
      decide (margin_right = auto) with
  | false, false, false =>
    { d with
      content.width := width.to_px
      margin.left := margin_left.to_px
      margin.right := margin_right.to_px + underflow }
  | false, false, true =>
    { d with
      content.width := width.to_px
      margin.left := margin_left.to_px
      margin.right := underflow }
  | false, true, false =>
    { d with
      content.width := width.to_px
      margin.left := underflow
      margin.right := margin_right.to_px }
  | false, true, true =>
    { d with
      content.width := width.to_px
      margin.left := underflow / 2
      margin.right := underflow / 2 }
  | true, _, _ =>
    let margin_left := if margin_left = auto then zero else margin_left
    let margin_right := if margin_right = auto then zero else margin_right
    if underflow ≥ 0 then
      { d with
        content.width := underflow
        margin.left := margin_left.to_px
        margin.right := margin_right.to_px }
    else
      { d with
        content.width := 0
        margin.left := margin_left.to_px
        margin.right := margin_right.to_px + underflow }

/-- `LayoutBox::calculate_block_position` (src/layout.rs lines 307-349).
The source reads the vertical paddings under the keys `"padding-top-width"`
and `"padding-bottom-width"`, and that is kept here. -/
def calculate_block_position (style : StyledNode)
    (containing_block : Dimensions) (d : Dimensions) : Dimensions :=
  let zero := Value.length_zero
  let d := { d with
    margin.top := (style.lookup "margin-top" "margin" zero).to_px
    margin.bottom := (style.lookup "margin-bottom" "margin" zero).to_px
    border.top := (style.lookup "border-top-width" "border-width" zero).to_px
    border.bottom :=
      (style.lookup "border-bottom-width" "border-width" zero).to_px
    padding.top := (style.lookup "padding-top-width" "padding" zero).to_px
    padding.bottom :=
      (style.lookup "padding-bottom-width" "padding" zero).to_px }
  { d with
    content.x := containing_block.content.x + d.margin.left + d.border.left +
      d.padding.left
    content.y := containing_block.content.y + containing_block.content.height +
      d.margin.top + d.border.top + d.padding.top }

/-- `LayoutBox::calculate_block_height` (src/layout.rs lines 361-365). -/
def calculate_block_height (style : StyledNode) (d : Dimensions) :
    Dimensions :=
  match style.value "height" with
  | some (.length h .px) => { d with content.height := h }
  | _ => d

mutual

/-- `LayoutBox::layout` (src/layout.rs lines 174-184) together with
`layout_block` (lines 187-202): width, then position, then children, then
height.  `none` models the `unimplemented!()` panic on inline and anonymous
boxes. -/
def layout (b : LayoutBox) (containing_block : Dimensions) :
    Option LayoutBox :=
  match b with
  | .mk dims (.blockNode style) cs =>
    let d := calculate_block_width style containing_block dims
    let d := calculate_block_position style containing_block d
    match layout_block_children d cs with
    | Option.none => none
    | some (d, cs) => some (.mk (calculate_block_height style d) (.blockNode style) cs)
  | .mk _ (.inlineNode _) _ => none
  | .mk _ .anonymousBlock _ => none

/-- `LayoutBox::layout_block_children` (src/layout.rs lines 351-359): lay
out each child against the parent's current dimensions, then add the child's
margin-box height to the parent's content height before the next child. -/
def layout_block_children (d : Dimensions) :
    List LayoutBox → Option (Dimensions × List LayoutBox)
  | [] => some (d, [])
  | c :: cs =>
    match layout c d with
    | Option.none => none
    | some c' =>
      let d := { d with
        content.height :=
          d.content.height + c'.dimensions.margin_box.height }
      match layout_block_children d cs with
      | Option.none => none
      | some (d', cs') => some (d', c' :: cs')

end

/-- Whether a box is an inline or anonymous box, i.e. one whose `layout`
hits `unimplemented!()`. -/
def LayoutBox.isInlineOrAnonymous : LayoutBox → Bool
  | .mk _ (.blockNode _) _ => false
  | _ => true

/-! ### Derived notions used only to state claims -/

/-- The value a rule's declaration list leaves for property `p` when its
declarations are inserted in order into a map, each overwriting the last:
the value of the rule's last declaration named `p`, if any. -/
def last_declared_value : List Declaration → String → Option Value
  | [], _ => none
  | d :: ds, p =>
    match last_declared_value ds p with
    | some v => some v
    | Option.none => if d.name = p then some d.value else none

/-- The block box `build_layout_children` creates for a display-block child. -/
def spec_block_box (c : StyledNode) : LayoutBox :=
  .mk Dimensions.default (.blockNode c) (build_layout_children true [] c.children)

/-- The inline box `build_layout_children` creates for a display-inline child. -/
def spec_inline_box (c : StyledNode) : LayoutBox :=
  .mk Dimensions.default (.inlineNode c) (build_layout_children false [] c.children)

/-- The child list of a block parent as the specification describes it
(spec §4.3): display-`None` children disappear, each display-block child
becomes its own box, and each maximal run of consecutive children whose
display is not block (the run's display-inline members, with display-`None`
ones dropped) is grouped under exactly one anonymous block.  Subtrees are
built by the code's own constructors; only the grouping is respecified. -/
def spec_grouped_children : List StyledNode → List LayoutBox
  | [] => []
  | c :: cs =>
    match c.display with
    | .none => spec_grouped_children cs
    | .block => spec_block_box c :: spec_grouped_children cs
    | .inline =>
      LayoutBox.mk Dimensions.default .anonymousBlock
        (spec_inline_box c ::
          (((cs.takeWhile fun x => x.display ≠ Display.block).filter
            fun x => x.display = Display.inline).map spec_inline_box))
        :: spec_grouped_children
          (cs.dropWhile fun x => x.display ≠ Display.block)
termination_by cs => cs.length
decreasing_by
  all_goals
    simp only [List.length_cons]
    first
      | omega
      | exact Nat.lt_succ_of_le (List.dropWhile_sublist _).length_le

/-! ### Concrete fixtures from the specification's testable properties -/

/-- A styled node with `width:1px; margin-left:auto; margin-right:auto`. -/
def widthTestStyle : StyledNode :=
  .mk (.text "t")
    [("width", .length 1 .px), ("margin-left", .keyword "auto"),
     ("margin-right", .keyword "auto")]
    []

/-- A containing block of content width 10. -/
def containing10 : Dimensions :=
  { Dimensions.default with content.width := 10 }

/-- The document `(p (div) (div))`. -/
def pDivDivNode : Node :=
  .element ⟨"p", []⟩ [.element ⟨"div", []⟩ [], .element ⟨"div", []⟩ []]

/-- The stylesheet `* { display: block } div { margin: 10px }`. -/
def blockMarginSheet : Stylesheet :=
  ⟨[⟨SortedSelectors.new [.simple ⟨Option.none, Option.none, ∅⟩],
      [⟨"display", .keyword "block"⟩]⟩,
    ⟨SortedSelectors.new [.simple ⟨some "div", Option.none, ∅⟩],
      [⟨"margin", .length 10 .px⟩]⟩]⟩

/-- The 800px-wide viewport `dump_layout` lays out against. -/
def viewport800 : Dimensions :=
  { Dimensions.default with content.width := 800 }

/-- The laid-out box tree for `(p (div) (div))` against `* { display: block }
div { margin: 10px }` in the 800px viewport. -/
def pDivDivLayout : Option LayoutBox :=
  (build_layout_tree (style_tree pDivDivNode blockMarginSheet)).bind
    fun t => layout t viewport800

/-- An inline box with no children (its styled node has an empty map). -/
def inlineLeafBox : LayoutBox :=
  .mk Dimensions.default (.inlineNode (.mk (.text "t") [] [])) []

/-- A block box whose only child is an inline box. -/
def blockWithInlineChild : LayoutBox :=
  .mk Dimensions.default
    (.blockNode (.mk (.text "t") [("display", .keyword "block")] []))
    [inlineLeafBox]

/-- The element `<div id="foo">` used by the cascade-precedence instance. -/
def divIdElem : ElementData := ⟨"div", [("id", "foo")]⟩

/-- A selector with only an id. -/
def selId : Selector := .simple ⟨Option.none, some "foo", ∅⟩

/-- A selector with two classes. -/
def selTwoClasses : Selector :=
  .simple ⟨Option.none, Option.none, {"class1", "class2"}⟩

/-- A selector with a tag and one class. -/
def selTagClass : Selector := .simple ⟨some "div", Option.none, {"class2"}⟩

/-- A selector with one class. -/
def selOneClass : Selector := .simple ⟨Option.none, Option.none, {"class1"}⟩

/-- A selector with only a tag. -/
def selTag : Selector := .simple ⟨some "div", Option.none, ∅⟩

/-- The universal selector. -/
def selUniversal : Selector := .simple ⟨Option.none, Option.none, ∅⟩

/-- A tag-selector rule declaring `color:#000000` (lower specificity). -/
def ruleTagBlack : Rule :=
  ⟨SortedSelectors.new [selTag], [⟨"color", .colorValue ⟨0, 0, 0⟩⟩]⟩

/-- An id-selector rule declaring `color:#010203` (higher specificity). -/
def ruleIdColor : Rule :=
  ⟨SortedSelectors.new [selId], [⟨"color", .colorValue ⟨1, 2, 3⟩⟩]⟩

/-! ## Theorems -/

theorem to_px_keyword_auto : Value.keyword_auto.to_px = 0 := rfl

theorem to_px_length_zero : Value.length_zero.to_px = 0 := rfl

theorem length_zero_eq_keyword_auto :
    (Value.length_zero = Value.keyword_auto) = False := by
  simp [Value.length_zero, Value.keyword_auto]

set_option maxHeartbeats 2000000 in
/-- C10: after `calculate_block_width`, the horizontal margin-box extent --
content width plus both margins, borders and paddings -- equals the
containing block's content width, in every branch of the resolution table. -/
theorem horizontal_box_constraint (style : StyledNode) (cb d : Dimensions) :
    (calculate_block_width style cb d).content.width +
      (calculate_block_width style cb d).margin.left +
      (calculate_block_width style cb d).margin.right +
      (calculate_block_width style cb d).border.left +
      (calculate_block_width style cb d).border.right +
      (calculate_block_width style cb d).padding.left +
      (calculate_block_width style cb d).padding.right =
      cb.content.width := by
  simp only [calculate_block_width, List.map, List.sum_cons, List.sum_nil]
  generalize (style.value "width").getD Value.keyword_auto = w
  generalize style.lookup "margin-left" "margin" Value.length_zero = ml
  generalize style.lookup "margin-right" "margin" Value.length_zero = mr
  generalize style.lookup "border-left-width" "border-width" Value.length_zero = bl
  generalize style.lookup "border-right-width" "border-width" Value.length_zero = br
  generalize style.lookup "padding-left" "padding" Value.length_zero = pl
  generalize style.lookup "padding-right" "padding" Value.length_zero = pr
  generalize cb.content.width = cw
  by_cases hw : w = Value.keyword_auto <;>
    by_cases hml : ml = Value.keyword_auto <;>
    by_cases hmr : mr = Value.keyword_auto <;>
    simp only [hw, hml, hmr, ne_eq, not_true_eq_false, not_false_eq_true,
      false_and, true_and, and_true, and_false, and_self, if_true, if_false,
      reduceIte, to_px_keyword_auto, to_px_length_zero,
      length_zero_eq_keyword_auto, eq_self_iff_true, decide_True,
      decide_False, decide_eq_true_eq] <;>
    (try split_ifs) <;>
    (try simp only [eq_self_iff_true, decide_True, decide_False,
      decide_eq_true_eq, length_zero_eq_keyword_auto, to_px_keyword_auto,
      to_px_length_zero]) <;>
    first
      | trivial
      | linarith

set_option maxHeartbeats 4000000 in
/-- C1: `calculate_block_width` implements the six-row auto-resolution
table keyed by which of (width, margin-left, margin-right) are auto: with
none auto the right margin absorbs the underflow; a sole auto margin takes
the underflow; with fixed width and both margins auto each margin takes
half the underflow; with auto width the auto margins become 0 and the
content width takes the underflow, clamped at 0 with the deficit pushed
into margin-right; and when width is fixed and the total exceeds the
containing width, auto margins are first forced to 0px.  In particular,
at containing width 10 with `width:1px` and both margins auto the result
is (1, 4.5, 4.5). -/
theorem width_resolution_table :
    (∀ (style : StyledNode) (cb d : Dimensions),
      (((style.value "width").getD Value.keyword_auto) ≠ Value.keyword_auto →
      (style.lookup "margin-left" "margin" Value.length_zero) ≠ Value.keyword_auto →
      (style.lookup "margin-right" "margin" Value.length_zero) ≠ Value.keyword_auto →
      (calculate_block_width style cb d).content.width = ((style.value "width").getD Value.keyword_auto).to_px ∧
      (calculate_block_width style cb d).margin.left = (style.lookup "margin-left" "margin" Value.length_zero).to_px ∧
      (calculate_block_width style cb d).margin.right = (style.lookup "margin-right" "margin" Value.length_zero).to_px + (cb.content.width -
        ((style.lookup "margin-left" "margin" Value.length_zero).to_px +
         (style.lookup "margin-right" "margin" Value.length_zero).to_px +
         (style.lookup "border-left-width" "border-width" Value.length_zero).to_px +
         (style.lookup "border-right-width" "border-width" Value.length_zero).to_px +
         (style.lookup "padding-left" "padding" Value.length_zero).to_px +
         (style.lookup "padding-right" "padding" Value.length_zero).to_px +
         ((style.value "width").getD Value.keyword_auto).to_px))) ∧
      (((style.value "width").getD Value.keyword_auto) ≠ Value.keyword_auto →
      (style.lookup "margin-left" "margin" Value.length_zero) ≠ Value.keyword_auto →
      (style.lookup "margin-right" "margin" Value.length_zero) = Value.keyword_auto →
      (calculate_block_width style cb d).content.width = ((style.value "width").getD Value.keyword_auto).to_px ∧
      (calculate_block_width style cb d).margin.left = (style.lookup "margin-left" "margin" Value.length_zero).to_px ∧
      (calculate_block_width style cb d).margin.right = (cb.content.width -
        ((style.lookup "margin-left" "margin" Value.length_zero).to_px +
         (style.lookup "margin-right" "margin" Value.length_zero).to_px +
         (style.lookup "border-left-width" "border-width" Value.length_zero).to_px +
         (style.lookup "border-right-width" "border-width" Value.length_zero).to_px +
         (style.lookup "padding-left" "padding" Value.length_zero).to_px +
         (style.lookup "padding-right" "padding" Value.length_zero).to_px +
         ((style.value "width").getD Value.keyword_auto).to_px))) ∧
      (((style.value "width").getD Value.keyword_auto) ≠ Value.keyword_auto →
      (style.lookup "margin-left" "margin" Value.length_zero) = Value.keyword_auto →
      (style.lookup "margin-right" "margin" Value.length_zero) ≠ Value.keyword_auto →
      ¬ ((style.lookup "margin-left" "margin" Value.length_zero).to_px +
         (style.lookup "margin-right" "margin" Value.length_zero).to_px +
         (style.lookup "border-left-width" "border-width" Value.length_zero).to_px +
         (style.lookup "border-right-width" "border-width" Value.length_zero).to_px +
         (style.lookup "padding-left" "padding" Value.length_zero).to_px +
         (style.lookup "padding-right" "padding" Value.length_zero).to_px +
         ((style.value "width").getD Value.keyword_auto).to_px) > cb.content.width →
      (calculate_block_width style cb d).content.width = ((style.value "width").getD Value.keyword_auto).to_px ∧
      (calculate_block_width style cb d).margin.left = (cb.content.width -
        ((style.lookup "margin-left" "margin" Value.length_zero).to_px +
         (style.lookup "margin-right" "margin" Value.length_zero).to_px +
         (style.lookup "border-left-width" "border-width" Value.length_zero).to_px +
         (style.lookup "border-right-width" "border-width" Value.length_zero).to_px +
         (style.lookup "padding-left" "padding" Value.length_zero).to_px +
         (style.lookup "padding-right" "padding" Value.length_zero).to_px +
         ((style.value "width").getD Value.keyword_auto).to_px)) ∧
      (calculate_block_width style cb d).margin.right = (style.lookup "margin-right" "margin" Value.length_zero).to_px) ∧
      (((style.value "width").getD Value.keyword_auto) ≠ Value.keyword_auto →
      (style.lookup "margin-left" "margin" Value.length_zero) = Value.keyword_auto →
      (style.lookup "margin-right" "margin" Value.length_zero) = Value.keyword_auto →
      ¬ ((style.lookup "margin-left" "margin" Value.length_zero).to_px +
         (style.lookup "margin-right" "margin" Value.length_zero).to_px +
         (style.lookup "border-left-width" "border-width" Value.length_zero).to_px +
         (style.lookup "border-right-width" "border-width" Value.length_zero).to_px +
         (style.lookup "padding-left" "padding" Value.length_zero).to_px +
         (style.lookup "padding-right" "padding" Value.length_zero).to_px +
         ((style.value "width").getD Value.keyword_auto).to_px) > cb.content.width →
      (calculate_block_width style cb d).content.width = ((style.value "width").getD Value.keyword_auto).to_px ∧
      (calculate_block_width style cb d).margin.left = (cb.content.width -
        ((style.lookup "margin-left" "margin" Value.length_zero).to_px +
         (style.lookup "margin-right" "margin" Value.length_zero).to_px +
         (style.lookup "border-left-width" "border-width" Value.length_zero).to_px +
         (style.lookup "border-right-width" "border-width" Value.length_zero).to_px +
         (style.lookup "padding-left" "padding" Value.length_zero).to_px +
         (style.lookup "padding-right" "padding" Value.length_zero).to_px +
         ((style.value "width").getD Value.keyword_auto).to_px)) / 2 ∧
      (calculate_block_width style cb d).margin.right = (cb.content.width -
        ((style.lookup "margin-left" "margin" Value.length_zero).to_px +
         (style.lookup "margin-right" "margin" Value.length_zero).to_px +
         (style.lookup "border-left-width" "border-width" Value.length_zero).to_px +
         (style.lookup "border-right-width" "border-width" Value.length_zero).to_px +
         (style.lookup "padding-left" "padding" Value.length_zero).to_px +
         (style.lookup "padding-right" "padding" Value.length_zero).to_px +
         ((style.value "width").getD Value.keyword_auto).to_px)) / 2) ∧
      (((style.value "width").getD Value.keyword_auto) ≠ Value.keyword_auto →
      (style.lookup "margin-left" "margin" Value.length_zero) = Value.keyword_auto →
      ((style.lookup "margin-left" "margin" Value.length_zero).to_px +
         (style.lookup "margin-right" "margin" Value.length_zero).to_px +
         (style.lookup "border-left-width" "border-width" Value.length_zero).to_px +
         (style.lookup "border-right-width" "border-width" Value.length_zero).to_px +
         (style.lookup "padding-left" "padding" Value.length_zero).to_px +
         (style.lookup "padding-right" "padding" Value.length_zero).to_px +
         ((style.value "width").getD Value.keyword_auto).to_px) > cb.content.width →
      (calculate_block_width style cb d).content.width = ((style.value "width").getD Value.keyword_auto).to_px ∧
      (calculate_block_width style cb d).margin.left = 0 ∧
      (calculate_block_width style cb d).margin.right =
        (if (style.lookup "margin-right" "margin" Value.length_zero) = Value.keyword_auto then 0 else (style.lookup "margin-right" "margin" Value.length_zero).to_px) + (cb.content.width -
        ((style.lookup "margin-left" "margin" Value.length_zero).to_px +
         (style.lookup "margin-right" "margin" Value.length_zero).to_px +
         (style.lookup "border-left-width" "border-width" Value.length_zero).to_px +
         (style.lookup "border-right-width" "border-width" Value.length_zero).to_px +
         (style.lookup "padding-left" "padding" Value.length_zero).to_px +
         (style.lookup "padding-right" "padding" Value.length_zero).to_px +
         ((style.value "width").getD Value.keyword_auto).to_px))) ∧
      (((style.value "width").getD Value.keyword_auto) = Value.keyword_auto →
      (calculate_block_width style cb d).content.width = (if (cb.content.width -
        ((style.lookup "margin-left" "margin" Value.length_zero).to_px +
         (style.lookup "margin-right" "margin" Value.length_zero).to_px +
         (style.lookup "border-left-width" "border-width" Value.length_zero).to_px +
         (style.lookup "border-right-width" "border-width" Value.length_zero).to_px +
         (style.lookup "padding-left" "padding" Value.length_zero).to_px +
         (style.lookup "padding-right" "padding" Value.length_zero).to_px +
         ((style.value "width").getD Value.keyword_auto).to_px)) ≥ 0 then (cb.content.width -
        ((style.lookup "margin-left" "margin" Value.length_zero).to_px +
         (style.lookup "margin-right" "margin" Value.length_zero).to_px +
         (style.lookup "border-left-width" "border-width" Value.length_zero).to_px +
         (style.lookup "border-right-width" "border-width" Value.length_zero).to_px +
         (style.lookup "padding-left" "padding" Value.length_zero).to_px +
         (style.lookup "padding-right" "padding" Value.length_zero).to_px +
         ((style.value "width").getD Value.keyword_auto).to_px)) else 0) ∧
      (calculate_block_width style cb d).margin.left =
        (if (style.lookup "margin-left" "margin" Value.length_zero) = Value.keyword_auto then 0 else (style.lookup "margin-left" "margin" Value.length_zero).to_px) ∧
      (calculate_block_width style cb d).margin.right =
        (if (style.lookup "margin-right" "margin" Value.length_zero) = Value.keyword_auto then 0 else (style.lookup "margin-right" "margin" Value.length_zero).to_px) +
          (if (cb.content.width -
        ((style.lookup "margin-left" "margin" Value.length_zero).to_px +
         (style.lookup "margin-right" "margin" Value.length_zero).to_px +
         (style.lookup "border-left-width" "border-width" Value.length_zero).to_px +
         (style.lookup "border-right-width" "border-width" Value.length_zero).to_px +
         (style.lookup "padding-left" "padding" Value.length_zero).to_px +
         (style.lookup "padding-right" "padding" Value.length_zero).to_px +
         ((style.value "width").getD Value.keyword_auto).to_px)) ≥ 0 then 0 else (cb.content.width -
        ((style.lookup "margin-left" "margin" Value.length_zero).to_px +
         (style.lookup "margin-right" "margin" Value.length_zero).to_px +
         (style.lookup "border-left-width" "border-width" Value.length_zero).to_px +
         (style.lookup "border-right-width" "border-width" Value.length_zero).to_px +
         (style.lookup "padding-left" "padding" Value.length_zero).to_px +
         (style.lookup "padding-right" "padding" Value.length_zero).to_px +
         ((style.value "width").getD Value.keyword_auto).to_px))))) ∧
    ((calculate_block_width widthTestStyle containing10 Dimensions.default).content.width = 1 ∧
      (calculate_block_width widthTestStyle containing10 Dimensions.default).margin.left = 9/2 ∧
      (calculate_block_width widthTestStyle containing10 Dimensions.default).margin.right = 9/2) := by
  constructor
  · intro style cb d
    simp only [calculate_block_width, List.map, List.sum_cons, List.sum_nil]
    generalize (style.value "width").getD Value.keyword_auto = w
    generalize style.lookup "margin-left" "margin" Value.length_zero = ml
    generalize style.lookup "margin-right" "margin" Value.length_zero = mr
    generalize style.lookup "border-left-width" "border-width" Value.length_zero = bl
    generalize style.lookup "border-right-width" "border-width" Value.length_zero = br
    generalize style.lookup "padding-left" "padding" Value.length_zero = pl
    generalize style.lookup "padding-right" "padding" Value.length_zero = pr
    generalize cb.content.width = cw
    refine ⟨?_, ?_, ?_, ?_, ?_, ?_⟩
    · intro hw hml hmr
      simp only [hw, hml, hmr, ne_eq, not_true_eq_false, not_false_eq_true,
        false_and, true_and, and_true, and_false, and_self, if_true, if_false,
        reduceIte, to_px_keyword_auto, to_px_length_zero,
        length_zero_eq_keyword_auto, eq_self_iff_true, decide_True,
        decide_False, decide_eq_true_eq] <;>
      (try split_ifs) <;>
      (try simp only [eq_self_iff_true, decide_True, decide_False,
        decide_eq_true_eq, length_zero_eq_keyword_auto, to_px_keyword_auto,
        to_px_length_zero]) <;>
      and_intros <;> first
        | trivial
        | linarith
    · intro hw hml hmr
      simp only [hw, hml, hmr, ne_eq, not_true_eq_false, not_false_eq_true,
        false_and, true_and, and_true, and_false, and_self, if_true, if_false,
        reduceIte, to_px_keyword_auto, to_px_length_zero,
        length_zero_eq_keyword_auto, eq_self_iff_true, decide_True,
        decide_False, decide_eq_true_eq] <;>
      (try split_ifs) <;>
      (try simp only [eq_self_iff_true, decide_True, decide_False,
        decide_eq_true_eq, length_zero_eq_keyword_auto, to_px_keyword_auto,
        to_px_length_zero]) <;>
      and_intros <;> first
        | trivial
        | linarith
    · intro hw hml hmr hT
      (try simp only [hml, hmr, to_px_keyword_auto, to_px_length_zero] at hT)
      simp only [hw, hml, hmr, ne_eq, not_true_eq_false, not_false_eq_true,
        false_and, true_and, and_true, and_false, and_self, if_true, if_false,
        reduceIte, to_px_keyword_auto, to_px_length_zero,
        length_zero_eq_keyword_auto, eq_self_iff_true, decide_True,
        decide_False, decide_eq_true_eq] <;>
      (try split_ifs) <;>
      (try simp only [eq_self_iff_true, decide_True, decide_False,
        decide_eq_true_eq, length_zero_eq_keyword_auto, to_px_keyword_auto,
        to_px_length_zero]) <;>
      and_intros <;> first
        | trivial
        | linarith
    · intro hw hml hmr hT
      (try simp only [hml, hmr, to_px_keyword_auto, to_px_length_zero] at hT)
      simp only [hw, hml, hmr, ne_eq, not_true_eq_false, not_false_eq_true,
        false_and, true_and, and_true, and_false, and_self, if_true, if_false,
        reduceIte, to_px_keyword_auto, to_px_length_zero,
        length_zero_eq_keyword_auto, eq_self_iff_true, decide_True,
        decide_False, decide_eq_true_eq] <;>
      (try split_ifs) <;>
      (try simp only [eq_self_iff_true, decide_True, decide_False,
        decide_eq_true_eq, length_zero_eq_keyword_auto, to_px_keyword_auto,
        to_px_length_zero]) <;>
      and_intros <;> first
        | trivial
        | linarith
    · intro hw hml hT
      by_cases hmr : mr = Value.keyword_auto <;>
      (try simp only [hml, hmr, to_px_keyword_auto, to_px_length_zero] at hT) <;>
      simp only [hw, hml, hmr, ne_eq, not_true_eq_false, not_false_eq_true,
        false_and, true_and, and_true, and_false, and_self, if_true, if_false,
        reduceIte, to_px_keyword_auto, to_px_length_zero,
        length_zero_eq_keyword_auto, eq_self_iff_true, decide_True,
        decide_False, decide_eq_true_eq] <;>
      (try split_ifs) <;>
      (try simp only [eq_self_iff_true, decide_True, decide_False,
        decide_eq_true_eq, length_zero_eq_keyword_auto, to_px_keyword_auto,
        to_px_length_zero]) <;>
      and_intros <;> first
        | trivial
        | linarith
    · intro hw
      by_cases hml : ml = Value.keyword_auto <;>
      by_cases hmr : mr = Value.keyword_auto <;>
      simp only [hw, hml, hmr, ne_eq, not_true_eq_false, not_false_eq_true,
        false_and, true_and, and_true, and_false, and_self, if_true, if_false,
        reduceIte, to_px_keyword_auto, to_px_length_zero,
        length_zero_eq_keyword_auto, eq_self_iff_true, decide_True,
        decide_False, decide_eq_true_eq] <;>
      (try split_ifs) <;>
      (try simp only [eq_self_iff_true, decide_True, decide_False,
        decide_eq_true_eq, length_zero_eq_keyword_auto, to_px_keyword_auto,
        to_px_length_zero]) <;>
      and_intros <;> first
        | trivial
        | linarith
  · with_unfolding_all decide

/-- C7: the display classification of a styled node is `Block` exactly when
the resolved map holds the keyword "block" under "display", `None` exactly
for the keyword "none", and `Inline` in every other case, including an
absent or non-keyword value. -/
theorem display_classification (n : StyledNode) :
    (n.display = Display.block ↔ n.value "display" = some (.keyword "block")) ∧
    (n.display = Display.none ↔ n.value "display" = some (.keyword "none")) ∧
    (n.display = Display.inline ↔
      n.value "display" ≠ some (.keyword "block") ∧
      n.value "display" ≠ some (.keyword "none")) := by
  cases h : n.value "display" with
  | none => simp [StyledNode.display, h]
  | some v =>
    cases v with
    | keyword s =>
      by_cases hb : s = "block"
      · simp [StyledNode.display, h, hb]
      · by_cases hn : s = "none" <;> simp [StyledNode.display, h, hb, hn]
    | length q u => simp [StyledNode.display, h]
    | colorValue c => simp [StyledNode.display, h]

/-- C8 (bug evidence): a node whose resolved map carries `padding-top: 5px`
and `padding-bottom: 7px` still gets vertical paddings 0 from
`calculate_block_position`, because the source reads the keys
`"padding-top-width"` and `"padding-bottom-width"` instead of
`"padding-top"` and `"padding-bottom"`. -/
theorem vertical_padding_keys_mismatch :
    ((StyledNode.mk (.text "t")
        [("padding-top", .length 5 .px), ("padding-bottom", .length 7 .px)]
        []).value "padding-top" = some (.length 5 .px)) ∧
    ((StyledNode.mk (.text "t")
        [("padding-top", .length 5 .px), ("padding-bottom", .length 7 .px)]
        []).value "padding-bottom" = some (.length 7 .px)) ∧
    (calculate_block_position
      (StyledNode.mk (.text "t")
        [("padding-top", .length 5 .px), ("padding-bottom", .length 7 .px)]
        [])
      Dimensions.default Dimensions.default).padding.top = 0 ∧
    (calculate_block_position
      (StyledNode.mk (.text "t")
        [("padding-top", .length 5 .px), ("padding-bottom", .length 7 .px)]
        [])
      Dimensions.default Dimensions.default).padding.bottom = 0 := by
  with_unfolding_all decide

theorem option_all_eq_true {α : Type} (o : Option α) (f : α → Bool) :
    (o.all f = true) ↔ ∀ x ∈ o, f x = true := by
  cases o <;> simp [Option.all]

/-- C4: a simple selector matches an element iff every present
constraint holds (tag equal, id equal, every class a member of the
element's class set), so the empty selector matches everything; and
`match_rule` returns the first matching selector of the rule's sorted list
paired with its specificity, or `none` when no selector matches. -/
theorem selector_matching :
    (∀ (elem : ElementData) (sel : SimpleSelector),
      matches_simple_selector elem sel = true ↔
        ((∀ t ∈ sel.tag_name, elem.tag_name = t) ∧
         (∀ i ∈ sel.id, elem.id = some i) ∧
         (∀ c ∈ sel.classes, c ∈ elem.classes))) ∧
    (∀ (elem : ElementData) (sel : SimpleSelector),
      sel.tag_name = Option.none → sel.id = Option.none → sel.classes = ∅ →
      matchesSel elem (.simple sel) = true) ∧
    (∀ (elem : ElementData) (rule : Rule),
      match_rule elem rule = Option.none ↔
        ∀ s ∈ rule.selectors.selectors, matchesSel elem s = false) ∧
    (∀ (elem : ElementData) (rule : Rule) (sp : Specifity) (r : Rule),
      match_rule elem rule = some (sp, r) →
      r = rule ∧ ∃ pre s post,
        rule.selectors.selectors = pre ++ s :: post ∧
        matchesSel elem s = true ∧ sp = s.specifity ∧
        ∀ x ∈ pre, matchesSel elem x = false) := by
  have hmss : ∀ (elem : ElementData) (sel : SimpleSelector),
      matches_simple_selector elem sel = true ↔
        ((∀ t ∈ sel.tag_name, elem.tag_name = t) ∧
         (∀ i ∈ sel.id, elem.id = some i) ∧
         (∀ c ∈ sel.classes, c ∈ elem.classes)) := by
    intro elem sel
    simp only [matches_simple_selector]
    split_ifs with h1 h2 h3 <;>
      simp_all [option_all_eq_true, List.elem_iff, beq_iff_eq]
  refine ⟨hmss, ?_, ?_, ?_⟩
  · intro elem sel ht hi hc
    simp [matchesSel, hmss, ht, hi, hc]
  · intro elem rule
    simp only [match_rule, match_selectors, Option.map_eq_none']
    simp [List.find?_eq_none, Bool.not_eq_true]
  · intro elem rule sp r h
    simp only [match_rule, match_selectors, Option.map_eq_some'] at h
    obtain ⟨s, hfind, heq⟩ := h
    obtain ⟨hsp, hr⟩ := Prod.mk.injEq .. ▸ heq
    rw [List.find?_eq_some] at hfind
    obtain ⟨hps, pre, post, hsplit, hpre⟩ := hfind
    exact ⟨hr.symm ▸ rfl, pre, s, post, hsplit, hps, hsp.symm,
      fun x hx => by simpa using hpre x hx⟩

theorem specCmp_lt_iff (a b : Specifity) :
    specCmp a b = Ordering.lt ↔
      (a.1 < b.1 ∨ (a.1 = b.1 ∧ (a.2.1 < b.2.1 ∨
        (a.2.1 = b.2.1 ∧ a.2.2 < b.2.2)))) := by
  rcases a with ⟨a1, a2, a3⟩
  rcases b with ⟨b1, b2, b3⟩
  simp only [specCmp]
  cases h1 : compare a1 b1 <;> cases h2 : compare a2 b2 <;>
    cases h3 : compare a3 b3 <;>
    simp_all [Ordering.then, Nat.compare_eq_lt, Nat.compare_eq_gt,
      Nat.compare_eq_eq] <;>
    omega

theorem specCmp_gt_iff (a b : Specifity) :
    specCmp a b = Ordering.gt ↔
      (b.1 < a.1 ∨ (b.1 = a.1 ∧ (b.2.1 < a.2.1 ∨
        (b.2.1 = a.2.1 ∧ b.2.2 < a.2.2)))) := by
  rcases a with ⟨a1, a2, a3⟩
  rcases b with ⟨b1, b2, b3⟩
  simp only [specCmp]
  cases h1 : compare a1 b1 <;> cases h2 : compare a2 b2 <;>
    cases h3 : compare a3 b3 <;>
    simp_all [Ordering.then, Nat.compare_eq_lt, Nat.compare_eq_gt,
      Nat.compare_eq_eq] <;>
    omega

theorem specCmp_eq_iff (a b : Specifity) :
    specCmp a b = Ordering.eq ↔ a = b := by
  rcases a with ⟨a1, a2, a3⟩
  rcases b with ⟨b1, b2, b3⟩
  simp only [specCmp]
  cases h1 : compare a1 b1 <;> cases h2 : compare a2 b2 <;>
    cases h3 : compare a3 b3 <;>
    simp_all [Ordering.then, Nat.compare_eq_lt, Nat.compare_eq_gt,
      Nat.compare_eq_eq] <;>
    omega

/-- C3: a selector's specificity is the triple (has-id, class count,
has-tag) compared lexicographically with higher winning, and
`SortedSelectors.new` sorts any selector list descending by it; the six
probe selectors {id}, {2 classes}, {tag+class}, {class}, {tag}, {universal}
sort to exactly that order. -/
theorem specificity_sorting :
    (∀ a b : Specifity,
      (specCmp a b = Ordering.lt ↔
        (a.1 < b.1 ∨ (a.1 = b.1 ∧ (a.2.1 < b.2.1 ∨
          (a.2.1 = b.2.1 ∧ a.2.2 < b.2.2))))) ∧
      (specCmp a b = Ordering.eq ↔ a = b)) ∧
    (∀ s : SimpleSelector,
      (Selector.simple s).specifity =
        (if s.id.isSome then 1 else 0, s.classes.card,
         if s.tag_name.isSome then 1 else 0)) ∧
    (∀ l : List Selector,
      (SortedSelectors.new l).selectors.Perm l ∧
      (SortedSelectors.new l).selectors.Pairwise
        (fun a b => specCmp a.specifity b.specifity ≠ Ordering.lt)) ∧
    SortedSelectors.new
        [selTag, selUniversal, selId, selTwoClasses, selTagClass, selOneClass] =
      ⟨[selId, selTwoClasses, selTagClass, selOneClass, selTag, selUniversal]⟩ := by
  refine ⟨fun a b => ⟨specCmp_lt_iff a b, specCmp_eq_iff a b⟩, fun s => rfl,
    ?_, ?_⟩
  · intro l
    constructor
    · exact List.mergeSort_perm l _
    · have hs := @List.sorted_mergeSort Selector
        (fun a b : Selector =>
          decide (specCmp b.specifity a.specifity ≠ Ordering.gt))
        (fun a b c hab hbc => ?_) (fun a b => ?_) l
      · refine hs.imp ?_
        intro a b h
        simp only [decide_eq_true_eq] at h
        intro hlt
        exact h (by
          rw [specCmp_gt_iff]
          rw [specCmp_lt_iff] at hlt
          tauto)
      · simp only [decide_eq_true_eq] at hab hbc ⊢
        rw [Ne, specCmp_gt_iff] at hab hbc ⊢
        omega
      · simp only [Bool.or_eq_true, decide_eq_true_eq]
        rw [Ne, specCmp_gt_iff, Ne, specCmp_gt_iff]
        omega
  · with_unfolding_all decide

theorem mergeSort_pair {α : Type} (le : α → α → Bool) (a b : α) :
    List.mergeSort [a, b] le = if le a b then [a, b] else [b, a] := by
  cases h : le a b <;>
    simp [List.mergeSort, List.splitInTwo, List.merge, h]

theorem get_foldl_insert (ds : List Declaration) (m : CssPropertyMap)
    (p : String) :
    (ds.foldl (fun values d => values.insert d.name d.value) m).get p =
      match last_declared_value ds p with
      | some v => some v
      | Option.none => m.get p := by
  induction ds generalizing m with
  | nil => simp [last_declared_value]
  | cons d ds ih =>
    simp only [List.foldl_cons, last_declared_value, ih]
    cases last_declared_value ds p with
    | none =>
      by_cases hn : d.name = p <;>
        simp [CssPropertyMap.insert, CssPropertyMap.get, List.find?, hn]
    | some v => simp

/-- C2: the cascade merges matched rules from lowest to highest
specificity with a stable sort, each declaration overwriting earlier ones:
for a property declared by two matching rules, the higher-specificity value
wins in either stylesheet order, and at equal specificity the rule that
appears later in the stylesheet wins. -/
theorem cascade_precedence (elem : ElementData) (r1 r2 : Rule)
    (s1 s2 : Specifity) (p : String) (v1 v2 : Value)
    (h1 : match_rule elem r1 = some (s1, r1))
    (h2 : match_rule elem r2 = some (s2, r2))
    (hv1 : last_declared_value r1.declarations p = some v1)
    (hv2 : last_declared_value r2.declarations p = some v2) :
    (specCmp s1 s2 = Ordering.lt →
      (css_specified_values elem ⟨[r1, r2]⟩).get p = some v2 ∧
      (css_specified_values elem ⟨[r2, r1]⟩).get p = some v2) ∧
    (s1 = s2 →
      (css_specified_values elem ⟨[r1, r2]⟩).get p = some v2 ∧
      (css_specified_values elem ⟨[r2, r1]⟩).get p = some v1) := by
  have hm12 : matching_rules elem ⟨[r1, r2]⟩ = [(s1, r1), (s2, r2)] := by
    simp [matching_rules, h1, h2]
  have hm21 : matching_rules elem ⟨[r2, r1]⟩ = [(s2, r2), (s1, r1)] := by
    simp [matching_rules, h1, h2]
  constructor
  · intro hlt
    have hgt : specCmp s2 s1 = Ordering.gt := by
      rw [specCmp_gt_iff]
      rw [specCmp_lt_iff] at hlt
      exact hlt
    constructor
    · simp only [css_specified_values, hm12, mergeSort_pair, hlt]
      simp [get_foldl_insert, hv2]
    · simp only [css_specified_values, hm21, mergeSort_pair, hgt]
      simp [get_foldl_insert, hv2]
  · intro heq
    subst heq
    have hne : specCmp s1 s1 = Ordering.eq := (specCmp_eq_iff s1 s1).2 rfl
    constructor
    · simp only [css_specified_values, hm12, mergeSort_pair, hne]
      simp [get_foldl_insert, hv2]
    · simp only [css_specified_values, hm21, mergeSort_pair, hne]
      simp [get_foldl_insert, hv1]

/-- C2 witness: for `<div id="foo">` with a tag rule declaring
`color:#000000` and an id rule declaring `color:#010203`, the resolved
color is `#010203` in both stylesheet orders. -/
theorem cascade_precedence_witness :
    (css_specified_values divIdElem ⟨[ruleTagBlack, ruleIdColor]⟩).get "color" =
      some (.colorValue ⟨1, 2, 3⟩) ∧
    (css_specified_values divIdElem ⟨[ruleIdColor, ruleTagBlack]⟩).get "color" =
      some (.colorValue ⟨1, 2, 3⟩) :=
  (cascade_precedence divIdElem ruleTagBlack ruleIdColor (0, 0, 1) (1, 0, 0)
    "color" (.colorValue ⟨0, 0, 0⟩) (.colorValue ⟨1, 2, 3⟩)
    (by with_unfolding_all decide) (by with_unfolding_all decide)
    (by with_unfolding_all decide) (by with_unfolding_all decide)).1
    (by with_unfolding_all decide)


set_option maxRecDepth 100000 in
/-- C5: block children stack vertically: a box's content y is the
containing block's content y plus its accumulated content height plus the
box's own top margin, border and padding, and `layout_block_children`
grows the parent's height by each child's margin-box height; concretely
`(p (div) (div))` with `* { display: block } div { margin: 10px }` in an
800px viewport gives root height 40, children at y = 10 and y = 30, both
780 wide. -/
theorem vertical_stacking :
    (∀ (style : StyledNode) (cb d : Dimensions),
      (calculate_block_position style cb d).content.y =
        cb.content.y + cb.content.height +
        (calculate_block_position style cb d).margin.top +
        (calculate_block_position style cb d).border.top +
        (calculate_block_position style cb d).padding.top) ∧
    (∀ (d : Dimensions) (cs : List LayoutBox) (d' : Dimensions)
        (cs' : List LayoutBox),
      layout_block_children d cs = some (d', cs') →
      d'.content.height =
        d.content.height +
          (cs'.map fun c => c.dimensions.margin_box.height).sum) ∧
    ((pDivDivLayout.map fun t => t.dimensions.content.height) = some 40 ∧
     ((pDivDivLayout.bind fun t => t.children[0]?).map fun c =>
       (c.dimensions.content.y, c.dimensions.content.width)) = some (10, 780) ∧
     ((pDivDivLayout.bind fun t => t.children[1]?).map fun c =>
       (c.dimensions.content.y, c.dimensions.content.width)) = some (30, 780)) := by
  refine ⟨?_, ?_, ?_⟩
  · intro style cb d
    simp [calculate_block_position]
  · intro d cs
    induction cs generalizing d with
    | nil =>
      intro d' cs' h
      simp only [layout_block_children] at h
      obtain ⟨rfl, rfl⟩ := Prod.mk.injEq .. ▸ Option.some.injEq .. ▸ h
      simp
    | cons c cs ih =>
      intro d' cs' h
      simp only [layout_block_children] at h
      cases hl : layout c d with
      | none => rw [hl] at h; exact absurd h (by simp)
      | some c' =>
        rw [hl] at h
        simp only at h
        cases hrec : layout_block_children
            { d with content.height :=
                d.content.height + c'.dimensions.margin_box.height } cs with
        | none => rw [hrec] at h; exact absurd h (by simp)
        | some pr =>
          rw [hrec] at h
          obtain ⟨d'', cs''⟩ := pr
          simp only [Option.some.injEq, Prod.mk.injEq] at h
          obtain ⟨rfl, rfl⟩ := h
          have := ih _ _ _ hrec
          simp only [List.map_cons, List.sum_cons]
          simp only [this]
          ring
  · with_unfolding_all decide


/-- C9 counterexample: laying out a block box whose only child is an
inline box does NOT complete without a fatal error -- it hits the
`unimplemented!()` arm through `layout_block_children`'s dispatch. -/
theorem layout_block_with_inline_child_fatal :
    layout blockWithInlineChild viewport800 = Option.none := by
  have h : (layout blockWithInlineChild viewport800).isNone = true := by
    with_unfolding_all decide
  exact Option.isNone_iff_eq_none.1 h

/-- C9 (amended): invoking `layout` on an inline or anonymous box is a
fatal error at the top level, and equally for an inline or anonymous box
among a block box's children, because `layout_block_children` dispatches
every child through the same `layout`. -/
theorem layout_inline_fatal_everywhere :
    (∀ (b : LayoutBox) (cb : Dimensions),
      b.isInlineOrAnonymous = true → layout b cb = Option.none) ∧
    (∀ (d : Dimensions) (cs : List LayoutBox),
      (∃ c ∈ cs, c.isInlineOrAnonymous = true) →
      layout_block_children d cs = Option.none) ∧
    (∀ (dims : Dimensions) (n : StyledNode) (cs : List LayoutBox)
        (cb : Dimensions),
      (∃ c ∈ cs, c.isInlineOrAnonymous = true) →
      layout (.mk dims (.blockNode n) cs) cb = Option.none) := by
  have htop : ∀ (b : LayoutBox) (cb : Dimensions),
      b.isInlineOrAnonymous = true → layout b cb = Option.none := by
    intro b cb h
    obtain ⟨dims, bt, cs⟩ := b
    cases bt with
    | blockNode n => simp [LayoutBox.isInlineOrAnonymous] at h
    | inlineNode n => simp [layout]
    | anonymousBlock => simp [layout]
  have hchildren : ∀ (d : Dimensions) (cs : List LayoutBox),
      (∃ c ∈ cs, c.isInlineOrAnonymous = true) →
      layout_block_children d cs = Option.none := by
    intro d cs
    induction cs generalizing d with
    | nil => rintro ⟨c, hc, -⟩; simp at hc
    | cons c cs ih =>
      rintro ⟨c0, hc0, h0⟩
      rcases List.mem_cons.1 hc0 with rfl | hmem
      · simp [layout_block_children, htop c0 d h0]
      · simp only [layout_block_children]
        cases hl : layout c d with
        | none => rfl
        | some c' => simp [ih _ ⟨c0, hmem, h0⟩]
  refine ⟨htop, hchildren, ?_⟩
  intro dims n cs cb hex
  simp [layout, hchildren _ cs hex]


theorem push_last_not_anon (acc : List LayoutBox) (b : LayoutBox)
    (h : ∀ x ∈ acc.getLast?, x.isAnonymous = false) :
    push_to_inline_container acc b =
      acc ++ [.mk Dimensions.default .anonymousBlock [b]] := by
  simp only [push_to_inline_container]
  cases hl : acc.getLast? with
  | none => simp
  | some x =>
    obtain ⟨ds, bt, cs⟩ := x
    have hx := h (LayoutBox.mk ds bt cs) (Option.mem_def.2 hl)
    cases bt with
    | anonymousBlock => simp [LayoutBox.isAnonymous] at hx
    | blockNode n => simp
    | inlineNode n => simp

theorem push_last_anon (acc : List LayoutBox) (ds : Dimensions)
    (bs : List LayoutBox) (b : LayoutBox) :
    push_to_inline_container (acc ++ [.mk ds .anonymousBlock bs]) b =
      acc ++ [.mk ds .anonymousBlock (bs ++ [b])] := by
  simp [push_to_inline_container, List.getLast?_concat, List.dropLast_concat]

theorem build_group_aux (cs : List StyledNode) :
    (∀ acc : List LayoutBox, (∀ x ∈ acc.getLast?, x.isAnonymous = false) →
      build_layout_children true acc cs = acc ++ spec_grouped_children cs) ∧
    (∀ (acc : List LayoutBox) (ds : Dimensions) (bs : List LayoutBox),
      build_layout_children true (acc ++ [.mk ds .anonymousBlock bs]) cs =
        acc ++ LayoutBox.mk ds .anonymousBlock
            (bs ++ (((cs.takeWhile fun x => x.display ≠ Display.block).filter
              fun x => x.display = Display.inline).map spec_inline_box))
          :: spec_grouped_children
            (cs.dropWhile fun x => x.display ≠ Display.block)) := by
  induction cs with
  | nil =>
    constructor
    · intro acc _
      simp [build_layout_children, spec_grouped_children]
    · intro acc ds bs
      simp [build_layout_children, spec_grouped_children]
  | cons c cs ih =>
    obtain ⟨ihA, ihB⟩ := ih
    obtain ⟨nd, mp, ccs⟩ := c
    constructor
    · intro acc hacc
      cases hd : (StyledNode.mk nd mp ccs).display with
      | none =>
        simp only [build_layout_children, hd]
        rw [ihA acc hacc, spec_grouped_children]
        simp [hd]
      | block =>
        simp only [build_layout_children, hd]
        rw [ihA _ (by simp [LayoutBox.isAnonymous])]
        rw [spec_grouped_children]
        simp [hd, spec_block_box, StyledNode.children]
      | inline =>
        simp only [build_layout_children, hd, if_true]
        rw [push_last_not_anon acc _ hacc, ihB acc Dimensions.default _]
        rw [spec_grouped_children]
        simp [hd, spec_inline_box, StyledNode.children]
    · intro acc ds bs
      cases hd : (StyledNode.mk nd mp ccs).display with
      | none =>
        simp only [build_layout_children, hd]
        rw [ihB acc ds bs]
        rw [List.takeWhile_cons_of_pos (by simp [hd]),
          List.dropWhile_cons_of_pos (by simp [hd]),
          List.filter_cons_of_neg (by simp [hd])]
      | block =>
        simp only [build_layout_children, hd]
        rw [List.takeWhile_cons_of_neg (by simp [hd]),
          List.dropWhile_cons_of_neg (by simp [hd])]
        rw [ihA ((acc ++ [LayoutBox.mk ds .anonymousBlock bs]) ++
              [LayoutBox.mk Dimensions.default
                (.blockNode (.mk nd mp ccs))
                (build_layout_children true [] ccs)])
            (by simp [LayoutBox.isAnonymous])]
        rw [spec_grouped_children]
        simp [hd, spec_block_box, StyledNode.children]
      | inline =>
        simp only [build_layout_children, hd, if_true]
        rw [push_last_anon, ihB acc ds (bs ++ _)]
        rw [List.takeWhile_cons_of_pos (by simp [hd]),
          List.dropWhile_cons_of_pos (by simp [hd]),
          List.filter_cons_of_pos (by simp [hd])]
        simp [spec_inline_box, StyledNode.children]

/-- C6: `build_layout_tree` drops display-`None` nodes with their whole
subtrees, and groups each maximal run of consecutive inline children of a
block parent under exactly one anonymous block: the built child list
equals the spec's run-grouping `spec_grouped_children`, which never makes
one anonymous block per inline child and never merges runs separated by a
block child. -/
theorem anonymous_block_grouping :
    (∀ n : StyledNode,
      build_layout_tree n = Option.none ↔ n.display = Display.none) ∧
    (∀ (pb : Bool) (acc : List LayoutBox) (c : StyledNode)
        (cs : List StyledNode),
      c.display = Display.none →
      build_layout_children pb acc (c :: cs) =
        build_layout_children pb acc cs) ∧
    (∀ cs : List StyledNode,
      build_layout_children true [] cs = spec_grouped_children cs) := by
  refine ⟨?_, ?_, ?_⟩
  · intro n
    cases hd : n.display <;> simp [build_layout_tree, hd]
  · intro pb acc c cs h
    obtain ⟨nd, mp, ccs⟩ := c
    simp [build_layout_children, h]
  · intro cs
    exact (build_group_aux cs).1 [] (by simp)

end Serval
